import Mathlib

/-!
Verification development for the hxa-connect-sdk client library.

The embedding below follows the TypeScript source closely:
* src/client.ts — WebSocket session manager (connect / doConnect /
  scheduleReconnect) and the event dispatcher (on / off / emit).
* src/thread-context.ts — the buffered context engine (handleThreadMessage,
  triggerDelivery, flush, toPromptContext).

Asynchronous effects are made explicit: outcomes of the ticket exchange,
socket open and thread fetch are injected parameters, and the messages that
arrive while mention handlers are awaited inside triggerDelivery are passed
as an explicit list of (threadId, message) pairs, processed through the same
buffering step the real event listener runs.  Wall-clock reads (Date.now())
are an explicit `now` parameter.  Regular-expression trigger patterns are
abstracted as String → Bool predicates.
-/

namespace HxaSdk

-- ═══ src/client.ts : reconnect state machine ═══════════════════════════

/-- ReconnectOptions after constructor defaulting (client.ts lines 146-153).
`maxAttempts = none` models the default Infinity. -/
structure ReconnectOptions where
  enabled : Bool
  initialDelay : Nat
  maxDelay : Nat
  backoffFactor : Nat
  maxAttempts : Option Nat
deriving Repr, DecidableEq

/-- The defaults applied by the constructor: enabled, 1000 ms initial delay,
30000 ms max delay, factor 2, unlimited attempts. -/
def defaultReconnectOptions : ReconnectOptions :=
  { enabled := true, initialDelay := 1000, maxDelay := 30000,
    backoffFactor := 2, maxAttempts := none }

/-- client.ts line 134: `private readonly maxImmediateReconnects = 3`. -/
def maxImmediateReconnects : Nat := 3

/-- The mutable reconnect counters and flag of HxaConnectClient
(client.ts lines 132-136). -/
structure ReconnectState where
  reconnectAttempts : Nat
  immediateReconnects : Nat
  intentionalDisconnect : Bool
deriving Repr, DecidableEq

/-- What a single call to scheduleReconnect decides. -/
inductive ScheduleOutcome where
  | noReconnect
  | reconnectFailed (attempts : Nat)
  | scheduled (delay : Nat)
deriving Repr, DecidableEq

/-- The guard `this.reconnectAttempts >= this.reconnectOpts.maxAttempts`
(client.ts line 266); always false for the Infinity default. -/
def atMaxAttempts (opts : ReconnectOptions) (attempts : Nat) : Bool :=
  match opts.maxAttempts with
  | some m => decide (m ≤ attempts)
  | none => false

/-- The backoff formula of client.ts lines 274-277:
`Math.min(initialDelay * backoffFactor ** attempts, maxDelay)`. -/
def backoffDelay (opts : ReconnectOptions) (attempts : Nat) : Nat :=
  min (opts.initialDelay * opts.backoffFactor ^ attempts) opts.maxDelay

/-- HxaConnectClient.scheduleReconnect (client.ts lines 264-305), restricted
to the synchronous scheduling decision: the chosen delay and the counter
updates.  The timer body is modeled separately by `reconnectTimerFires`. -/
def scheduleReconnect (opts : ReconnectOptions) (st : ReconnectState)
    (immediate : Bool) : ScheduleOutcome × ReconnectState :=
  if st.intentionalDisconnect || !opts.enabled then (.noReconnect, st)
  else if atMaxAttempts opts st.reconnectAttempts then
    (.reconnectFailed st.reconnectAttempts, st)
  else
    let doImmediate := immediate && decide (st.immediateReconnects < maxImmediateReconnects)
    let delay := if doImmediate then 0 else backoffDelay opts st.reconnectAttempts
    if doImmediate then
      (.scheduled delay, { st with immediateReconnects := st.immediateReconnects + 1 })
    else
      (.scheduled delay,
       { st with reconnectAttempts := st.reconnectAttempts + 1, immediateReconnects := 0 })

/-- The success branch of the reconnect timer body (client.ts lines 296-300):
after a successful doConnect, both counters reset to zero. -/
def reconnectSuccess (st : ReconnectState) : ReconnectState :=
  { st with reconnectAttempts := 0, immediateReconnects := 0 }

/-- The reconnect timer body (client.ts lines 287-304): on success both
counters reset; on failure another attempt is scheduled with `immediate = false`. -/
def reconnectTimerFires (opts : ReconnectOptions) (st : ReconnectState)
    (connectOk : Bool) : ScheduleOutcome × ReconnectState :=
  if st.intentionalDisconnect then (.noReconnect, st)
  else if connectOk then (.noReconnect, reconnectSuccess st)
  else scheduleReconnect opts st false

-- ═══ src/client.ts : connect / doConnect ═══════════════════════════════

/-- External calls made against the transport/RPC collaborator during a
connection attempt. -/
inductive ExtCall where
  | ticketExchange
  | socketOpen
deriving Repr, DecidableEq

/-- The two failure shapes connect() can reject with: an ApiError from
`POST /api/ws-ticket` (carrying the HTTP status), or the
"WebSocket connection failed" Error from createWebSocket. -/
inductive ConnectError where
  | ticketExchangeFailed (status : Nat)
  | socketOpenFailed (message : String)
deriving Repr, DecidableEq

/-- Outcomes of the two awaited external calls inside doConnect. -/
structure ConnectEnv where
  ticketResult : Except Nat String
  socketResult : Except String Unit

/-- client.ts line 38: `const WS_OPEN = 1`. -/
def WS_OPEN : Nat := 1

/-- The connection-related fields of HxaConnectClient: the held socket (as
its readyState, when one is held), the reconnect counters and the pending
timer flag. -/
structure ClientConnState where
  ws : Option Nat
  reconn : ReconnectState
  reconnectTimer : Bool
deriving Repr, DecidableEq

/-- The `this.ws && this.ws.readyState === WS_OPEN` test (client.ts line 219). -/
def wsIsOpen (st : ClientConnState) : Bool :=
  match st.ws with
  | some rs => rs == WS_OPEN
  | none => false

/-- HxaConnectClient.doConnect (client.ts lines 231-262): exchange the token
for a ticket, then open the socket; either step may fail, in which case the
held socket is left untouched.  Also returns the external calls performed. -/
def doConnect (st : ClientConnState) (env : ConnectEnv) :
    ClientConnState × Option ConnectError × List ExtCall :=
  match env.ticketResult with
  | .error status => (st, some (.ticketExchangeFailed status), [.ticketExchange])
  | .ok _ticket =>
    match env.socketResult with
    | .error msg => (st, some (.socketOpenFailed msg), [.ticketExchange, .socketOpen])
    | .ok _ => ({ st with ws := some WS_OPEN }, none, [.ticketExchange, .socketOpen])

/-- HxaConnectClient.connect (client.ts lines 218-229): returns immediately
when already connected; otherwise resets the reconnect state, clears any
pending timer and runs doConnect. -/
def connect (st : ClientConnState) (env : ConnectEnv) :
    ClientConnState × Option ConnectError × List ExtCall :=
  if wsIsOpen st then (st, none, [])
  else
    doConnect
      { st with
          reconn := { reconnectAttempts := 0, immediateReconnects := 0,
                      intentionalDisconnect := false },
          reconnectTimer := false }
      env

-- ═══ src/client.ts : event dispatcher ══════════════════════════════════

/-- The handler registry `Map<string, Set<EventHandler>>`, with handlers
identified by reference identity (modeled as Nat ids) and each per-event Set
modeled as a duplicate-free insertion-ordered list. -/
def HandlerRegistry : Type := String → List Nat

/-- HxaConnectClient.on (client.ts lines 346-351): Set.add — appends the
handler unless an identical reference is already registered for the event. -/
def onEvent (reg : HandlerRegistry) (event : String) (h : Nat) : HandlerRegistry :=
  fun e =>
    if e = event then
      (if h ∈ reg event then reg event else reg event ++ [h])
    else reg e

/-- HxaConnectClient.off (client.ts lines 356-361): Set.delete — removes the
handler registered for the event, matching by reference. -/
def offEvent (reg : HandlerRegistry) (event : String) (h : Nat) : HandlerRegistry :=
  fun e => if e = event then (reg event).erase h else reg e

/-- HxaConnectClient.emit (client.ts lines 369-383), instrumented to return
the trace of handler invocations as (handler, eventType) pairs.
`throws h e` says whether handler h throws when invoked for event e.
A throwing handler causes a nested emit of "error" unless the current event
already is "error"; since that nested dispatch never recurses further, fuel 2
realizes the full recursion. -/
def emitCore (reg : HandlerRegistry) (throws : Nat → String → Bool) :
    Nat → String → List (Nat × String)
  | 0, _ => []
  | fuel + 1, event =>
    (reg event).foldl
      (fun acc h =>
        let acc1 := acc ++ [(h, event)]
        if throws h event then
          if event = "error" then acc1
          else acc1 ++ emitCore reg throws fuel "error"
        else acc1)
      []

/-- Invocation trace of one emit call. -/
def emit (reg : HandlerRegistry) (throws : Nat → String → Bool)
    (event : String) : List (Nat × String) :=
  emitCore reg throws 2 event

/-- HxaConnectClient.emit (client.ts lines 369-383) over the full behavior
space of handlers: `throws h e` says handler h throws synchronously when
invoked for event e, and `rejects h e` says it is an async handler whose
returned promise rejects (a handler that throws synchronously never returns
a promise, so the throw case takes precedence).  The try/catch around
`handler(data)` is synchronous: a synchronous throw is caught and, except
when the event already is "error", re-dispatched as a nested emit of
"error"; a rejected promise is invisible to that catch, so no "error"
dispatch happens and the rejection escapes the emitter as an unhandled
promise rejection.  Returns the invocation trace together with the escaped
rejections, both as (handler, eventType) pairs; as with emitCore, fuel 2
realizes the one-level recursion. -/
def emitAsyncCore (reg : HandlerRegistry)
    (throws rejects : Nat → String → Bool) :
    Nat → String → List (Nat × String) × List (Nat × String)
  | 0, _ => ([], [])
  | fuel + 1, event =>
    (reg event).foldl
      (fun acc h =>
        if throws h event then
          if event = "error" then (acc.1 ++ [(h, event)], acc.2)
          else
            ((acc.1 ++ [(h, event)]) ++
              (emitAsyncCore reg throws rejects fuel "error").1,
             acc.2 ++ (emitAsyncCore reg throws rejects fuel "error").2)
        else if rejects h event then
          (acc.1 ++ [(h, event)], acc.2 ++ [(h, event)])
        else (acc.1 ++ [(h, event)], acc.2))
      ([], [])

/-- Invocation trace and escaped rejections of one emit call. -/
def emitAsync (reg : HandlerRegistry)
    (throws rejects : Nat → String → Bool) (event : String) :
    List (Nat × String) × List (Nat × String) :=
  emitAsyncCore reg throws rejects 2 event

-- ═══ src/thread-context.ts : data model ════════════════════════════════

/-- WireThreadMessage (types.ts lines 146-158), with `parts` reduced to the
textual contents extractText collects from them. -/
structure WireThreadMessage where
  id : String
  thread_id : String
  sender_id : Option String
  content : String
  parts : List String
  sender_name : Option String
  created_at : Nat
deriving Repr, DecidableEq

/-- The Thread fields toPromptContext reads (types.ts lines 85-101). -/
structure Thread where
  id : String
  topic : String
  status : String
  tags : Option (List String)
  context : Option String
deriving Repr, DecidableEq

/-- The ThreadParticipant fields toPromptContext reads (types.ts lines 127-134). -/
structure ThreadParticipant where
  bot_id : String
  name : Option String
  label : Option String
deriving Repr, DecidableEq

/-- The Artifact fields toPromptContext reads (types.ts lines 160-175). -/
structure Artifact where
  artifact_key : String
  type : String
  version : Nat
  title : Option String
deriving Repr, DecidableEq

/-- ThreadContext options after constructor normalization (thread-context.ts
lines 89-95): the compiled mention patterns plus caller-supplied patterns,
abstracted as text predicates. -/
structure ThreadContextOptions where
  triggerPatterns : List (String → Bool)
  botId : Option String
  maxBufferSize : Nat
  triggerOnInvite : Bool

/-- A total map keyed by thread id, with pointwise update; lookups of the
source's `Map.get(k) ?? default` become plain application. -/
def setMap {α : Type} (m : String → α) (k : String) (v : α) : String → α :=
  fun q => if q = k then v else m q

/-- The mutable per-thread state of ThreadContext (thread-context.ts lines
71-78).  Missing map entries are the functions' default values
(empty buffer, no cache entry, no watermark). -/
structure ThreadContextState where
  started : Bool
  buffers : String → List WireThreadMessage
  threadCache : String → Option Thread
  participantCache : String → Option (List ThreadParticipant)
  artifactCache : String → List Artifact
  deliveredUpTo : String → Option Nat
  deliveredIds : String → Option (List String)

/-- ThreadSnapshot (thread-context.ts lines 13-22). -/
structure ThreadSnapshot where
  thread : Thread
  participants : List ThreadParticipant
  newMessages : List WireThreadMessage
  bufferedCount : Nat
  artifacts : List Artifact
deriving Repr, DecidableEq

/-- MentionTrigger (thread-context.ts lines 24-28). -/
structure MentionTrigger where
  threadId : String
  message : WireThreadMessage
  snapshot : ThreadSnapshot
deriving Repr, DecidableEq

/-- ThreadContext.extractText (thread-context.ts lines 209-219): the primary
content joined with every textual part by single spaces. -/
def extractText (message : WireThreadMessage) : String :=
  String.intercalate " " (message.content :: message.parts)

/-- ThreadContext.isMention (thread-context.ts lines 200-207): some trigger
pattern matches the concatenated text. -/
def isMention (opts : ThreadContextOptions) (message : WireThreadMessage) : Bool :=
  opts.triggerPatterns.any (fun pattern => pattern (extractText message))

/-- The append-and-cap step of handleThreadMessage (thread-context.ts lines
185-192): push the message, then `splice(0, length - maxBufferSize)` when the
buffer exceeds the cap. -/
def bufferAppend (opts : ThreadContextOptions)
    (buffer : List WireThreadMessage) (message : WireThreadMessage) :
    List WireThreadMessage :=
  let buffer := buffer ++ [message]
  if opts.maxBufferSize < buffer.length then
    buffer.drop (buffer.length - opts.maxBufferSize)
  else buffer

/-- The non-triggering part of ThreadContext.handleThreadMessage
(thread-context.ts lines 178-192): guards (not started; own message) and the
buffering step.  This is the step the event listener runs for each message
that arrives while triggerDelivery is awaiting its handlers, under the
assumption that those messages do not themselves match a trigger pattern. -/
def bufferMessage (opts : ThreadContextOptions) (st : ThreadContextState)
    (threadId : String) (message : WireThreadMessage) : ThreadContextState :=
  if st.started = false then st
  else if message.sender_id = opts.botId then st
  else
    { st with
        buffers := setMap st.buffers threadId
          (bufferAppend opts (st.buffers threadId) message) }

/-- The synthetic placeholder trigger message (thread-context.ts line 259). -/
def syntheticTrigger (threadId : String) (now : Nat) : WireThreadMessage :=
  { id := "", thread_id := threadId, sender_id := none, content := "",
    parts := [], sender_name := none, created_at := now }

/-- The degraded placeholder thread used when the on-demand fetch fails
(thread-context.ts line 241): `{ id: threadId, topic: 'unknown' } as Thread`. -/
def placeholderThread (threadId : String) : Thread :=
  { id := threadId, topic := "unknown", status := "", tags := none, context := none }

/-- Result of one delivery: the trigger record handed to every mention
handler (carrying the snapshot) and the post-delivery engine state. -/
structure DeliveryResult where
  trigger : MentionTrigger
  state : ThreadContextState

/-- ThreadContext.triggerDelivery (thread-context.ts lines 221-288).
`fetch` is the outcome of the on-demand `client.getThread` call performed on
a cache miss (`none` models a fetch failure); `midArrivals` are the
(threadId, message) events processed by the listener while the mention
handlers are awaited, in arrival order; `now` is Date.now(). -/
def triggerDelivery (opts : ThreadContextOptions) (st : ThreadContextState)
    (threadId : String) (triggerMessage : Option WireThreadMessage)
    (fetch : Option (Thread × List ThreadParticipant))
    (midArrivals : List (String × WireThreadMessage)) (now : Nat) :
    DeliveryResult :=
  let buffer := st.buffers threadId
  let bufferedCount := buffer.length
  -- Snapshot taken before any asynchronous work
  let snapshotMessages := buffer.take bufferedCount
  -- Build snapshot: fetch thread if not cached
  let fetched :=
    match st.threadCache threadId, st.participantCache threadId with
    | some t, some p => (t, p, st)
    | _, _ =>
      match fetch with
      | some (t, p) =>
        (t, p,
         { st with
             threadCache := setMap st.threadCache threadId (some t),
             participantCache := setMap st.participantCache threadId (some p) })
      | none =>
        ((st.threadCache threadId).getD (placeholderThread threadId),
         (st.participantCache threadId).getD [], st)
  let thread := fetched.1
  let participants := fetched.2.1
  let st1 := fetched.2.2
  let artifacts := st1.artifactCache threadId
  let snapshot : ThreadSnapshot :=
    { thread := thread, participants := participants,
      newMessages := snapshotMessages, bufferedCount := bufferedCount,
      artifacts := artifacts }
  let trigger : MentionTrigger :=
    { threadId := threadId,
      message :=
        ((triggerMessage.orElse (fun _ => snapshotMessages.getLast?)).getD
          (syntheticTrigger threadId now)),
      snapshot := snapshot }
  -- Handlers are awaited here; the listener processes midArrivals meanwhile
  let st2 := midArrivals.foldl (fun s a => bufferMessage opts s a.1 a.2) st1
  -- Preserve messages that arrived during handler execution
  let currentBuffer := st2.buffers threadId
  let newlyArrived := currentBuffer.drop bufferedCount
  let st3 := { st2 with buffers := setMap st2.buffers threadId newlyArrived }
  -- Watermark update from the last frozen-slice message
  let lastMsg := snapshotMessages.getLast?
  let watermark := (lastMsg.map (fun m => m.created_at)).getD now
  let idsAtWatermark :=
    (snapshotMessages.filter (fun m => m.created_at == watermark)).map
      (fun m => m.id)
  let st4 :=
    { st3 with
        deliveredUpTo := setMap st3.deliveredUpTo threadId (some watermark),
        deliveredIds := setMap st3.deliveredIds threadId (some idsAtWatermark) }
  { trigger := trigger, state := st4 }

/-- ThreadContext.handleThreadMessage (thread-context.ts lines 178-198):
guards, buffering, then delivery when the message matches a trigger pattern. -/
def handleThreadMessage (opts : ThreadContextOptions) (st : ThreadContextState)
    (threadId : String) (message : WireThreadMessage)
    (fetch : Option (Thread × List ThreadParticipant))
    (midArrivals : List (String × WireThreadMessage)) (now : Nat) :
    ThreadContextState :=
  if st.started = false then st
  else if message.sender_id = opts.botId then st
  else
    let st1 :=
      { st with
          buffers := setMap st.buffers threadId
            (bufferAppend opts (st.buffers threadId) message) }
    if isMention opts message then
      (triggerDelivery opts st1 threadId (some message) fetch midArrivals now).state
    else st1

/-- ThreadContext.flush (thread-context.ts lines 309-314): deliver with the
most recent buffered message as the trigger; no-op on an empty buffer. -/
def flush (opts : ThreadContextOptions) (st : ThreadContextState)
    (threadId : String) (fetch : Option (Thread × List ThreadParticipant))
    (midArrivals : List (String × WireThreadMessage)) (now : Nat) :
    Option DeliveryResult :=
  let buffer := st.buffers threadId
  match buffer.getLast? with
  | some lastMsg =>
    some (triggerDelivery opts st threadId (some lastMsg) fetch midArrivals now)
  | none => none

-- ═══ src/thread-context.ts : toPromptContext ═══════════════════════════

/-- The delta-mode predicate of toPromptContext (thread-context.ts lines
373-379): strictly newer than the watermark, or at the watermark timestamp
and not among the delivered ids. -/
def deltaFilter (st : ThreadContextState) (threadId : String)
    (m : WireThreadMessage) : Bool :=
  let watermark := (st.deliveredUpTo threadId).getD 0
  let ids := st.deliveredIds threadId
  if watermark < m.created_at then true
  else if m.created_at = watermark then
    match ids with
    | some s => !(s.contains m.id)
    | none => false
  else false

/-- The message list rendered by delta mode (thread-context.ts lines
372-380): the current buffer filtered by the watermark predicate. -/
def deltaMessages (st : ThreadContextState) (threadId : String) :
    List WireThreadMessage :=
  (st.buffers threadId).filter (fun m => deltaFilter st threadId m)

/-- The prompt modes of toPromptContext (thread-context.ts line 328). -/
inductive PromptMode where
  | summary
  | full
  | delta
deriving Repr, DecidableEq

/-- Two-digit zero padding for time fields. -/
def pad2 (n : Nat) : String :=
  if n < 10 then "0" ++ toString n else toString n

/-- The `new Date(ms).toISOString().slice(11, 19)` rendering of a millisecond
timestamp (thread-context.ts line 387): HH:MM:SS of the UTC day. -/
def isoTimeOfMs (ms : Nat) : String :=
  pad2 (ms / 3600000 % 24) ++ ":" ++ pad2 (ms / 60000 % 60) ++ ":" ++
    pad2 (ms / 1000 % 60)

/-- One rendered message line (thread-context.ts lines 385-389). -/
def renderMessageLine (msg : WireThreadMessage) : String :=
  let sender := ((msg.sender_name.orElse (fun _ => msg.sender_id)).getD "system")
  "[" ++ isoTimeOfMs msg.created_at ++ "] " ++ sender ++ ": " ++ msg.content

/-- One rendered participant entry (thread-context.ts lines 349-352). -/
def renderParticipant (p : ThreadParticipant) : String :=
  let label :=
    match p.label with
    | some l => if l = "" then "" else " (" ++ l ++ ")"
    | none => ""
  (p.name.getD p.bot_id) ++ label

/-- One rendered artifact entry (thread-context.ts line 361). -/
def renderArtifact (a : Artifact) : String :=
  let title :=
    match a.title with
    | some t => if t = "" then "" else ": " ++ t
    | none => ""
  "- **" ++ a.artifact_key ++ "** (" ++ a.type ++ ", v" ++ toString a.version
    ++ ")" ++ title

/-- ThreadContext.toPromptContext (thread-context.ts lines 326-393), as the
list of lines later joined with newlines. -/
def promptLines (st : ThreadContextState) (threadId : String)
    (mode : PromptMode) : List String :=
  let thread := st.threadCache threadId
  let participants := (st.participantCache threadId).getD []
  let buffer := st.buffers threadId
  let artifacts := st.artifactCache threadId
  let headerLines :=
    match thread with
    | some t =>
      ["## Thread: " ++ t.topic, "Status: " ++ t.status ++ " | ID: " ++ t.id]
        ++ (match t.tags with
            | some tags =>
              if tags = [] then [] else ["Tags: " ++ String.intercalate ", " tags]
            | none => [])
        ++ (match t.context with
            | some c => if c = "" then [] else ["Context: " ++ c]
            | none => [])
    | none => ["## Thread: " ++ threadId]
  let participantLines :=
    if participants = [] then []
    else ["Participants: " ++
      String.intercalate ", " (participants.map renderParticipant)]
  let artifactLines :=
    if artifacts = [] then []
    else "" :: "### Artifacts" :: artifacts.map renderArtifact
  let lines := headerLines ++ participantLines ++ artifactLines
  match mode with
  | .summary =>
    lines ++ ["", "[" ++ toString buffer.length ++ " new message(s) buffered]"]
  | _ =>
    let messages :=
      match mode with
      | .delta => deltaMessages st threadId
      | _ => buffer
    let messageLines :=
      if messages = [] then []
      else
        "" :: (if mode = .delta then "### New Messages" else "### Messages")
          :: messages.map renderMessageLine
    lines ++ messageLines

/-- The final string returned by toPromptContext. -/
def toPromptContext (st : ThreadContextState) (threadId : String)
    (mode : PromptMode) : String :=
  String.intercalate "\n" (promptLines st threadId mode)

-- ═══ Concrete instances used by witnesses and counterexamples ══════════

/-- A freshly started engine with no buffered state. -/
def exEmptyState : ThreadContextState :=
  { started := true, buffers := fun _ => [], threadCache := fun _ => none,
    participantCache := fun _ => none, artifactCache := fun _ => [],
    deliveredUpTo := fun _ => none, deliveredIds := fun _ => none }

/-- A non-self, non-triggering inbound message with the given id and time. -/
def exMsg (id : String) (t : Nat) : WireThreadMessage :=
  { id := id, thread_id := "t1", sender_id := some "alice", content := "hello",
    parts := [], sender_name := some "Alice", created_at := t }

/-- Options with cap 1 and no trigger patterns. -/
def c1Opts : ThreadContextOptions :=
  { triggerPatterns := [], botId := some "bot", maxBufferSize := 1,
    triggerOnInvite := true }

/-- Engine state holding one buffered message m1 in thread t1. -/
def c1Pre : ThreadContextState :=
  handleThreadMessage c1Opts exEmptyState "t1" (exMsg "m1" 1) none [] 0

/-- A delivery for t1 during which one further message m2 arrives while the
handlers are awaited, with the buffer already at the configured cap. -/
def c1Delivery : DeliveryResult :=
  triggerDelivery c1Opts c1Pre "t1" (some (exMsg "m1" 1)) none
    [("t1", exMsg "m2" 2)] 50

/-- Options with cap 2 and no trigger patterns. -/
def c7Opts : ThreadContextOptions :=
  { triggerPatterns := [], botId := some "bot", maxBufferSize := 2,
    triggerOnInvite := true }

/-- State after appending A(t=1), B(t=2), C(t=3) with cap 2: buffer [B, C]. -/
def c7Buffered : ThreadContextState :=
  [exMsg "A" 1, exMsg "B" 2, exMsg "C" 3].foldl
    (fun s m => handleThreadMessage c7Opts s "t1" m none [] 0) exEmptyState

/-- The manual flush of that buffer. -/
def c7Flush : Option DeliveryResult := flush c7Opts c7Buffered "t1" none [] 99

/-- A state with buffer [A(1), B(2), C(3)] and watermark (2, ids including B). -/
def c4State : ThreadContextState :=
  { exEmptyState with
      buffers := setMap (fun _ => []) "t1" [exMsg "A" 1, exMsg "B" 2, exMsg "C" 3],
      deliveredUpTo := setMap (fun _ => none) "t1" (some 2),
      deliveredIds := setMap (fun _ => none) "t1" (some ["B"]) }

/-- A registry with two thread_message handlers and one error handler. -/
def exReg : HandlerRegistry :=
  fun e =>
    if e = "thread_message" then [1, 2]
    else if e = "error" then [9] else []

/-- Handler 1 throws on every invocation; everyone else succeeds. -/
def exThrows : Nat → String → Bool := fun h _ => h == 1

/-- Handler 1 is an async handler whose returned promise rejects; everyone
else returns normally. -/
def exRejects : Nat → String → Bool := fun h _ => h == 1

/-- No handler fails this way. -/
def neverFails : Nat → String → Bool := fun _ _ => false

/-- An empty handler registry. -/
def emptyReg : HandlerRegistry := fun _ => []

/-- A client whose socket is open. -/
def exConnected : ClientConnState :=
  { ws := some 1, reconn := ⟨0, 0, false⟩, reconnectTimer := false }

/-- A client holding no socket. -/
def exDisconnected : ClientConnState :=
  { ws := none, reconn := ⟨0, 0, false⟩, reconnectTimer := false }

/-- Both external calls succeed. -/
def envOkEx : ConnectEnv := { ticketResult := .ok "tk", socketResult := .ok () }

/-- The ticket exchange fails with HTTP 500. -/
def envTicketFail : ConnectEnv :=
  { ticketResult := .error 500, socketResult := .ok () }

/-- The ticket exchange succeeds but the socket open fails. -/
def envSocketFail : ConnectEnv :=
  { ticketResult := .ok "tk", socketResult := .error "refused" }

-- ═══ Theorems ══════════════════════════════════════════════════════════

/-- C2: every backoff-based reconnect attempt is scheduled with delay
min(initialDelay × backoffFactor^attempts, maxDelay) and increments the
attempts counter; a successful reconnect (the success path shared by
immediate-retry and backoff attempts) resets the attempts counter to zero;
with the default options, consecutive backoff attempts yield delays
1000, 2000, 4000, 8000, 16000, then capped at 30000. -/
theorem C2_exponential_backoff (opts : ReconnectOptions) (st : ReconnectState)
    (immediate : Bool)
    (h1 : st.intentionalDisconnect = false) (h2 : opts.enabled = true)
    (h3 : atMaxAttempts opts st.reconnectAttempts = false)
    (h4 : immediate = false ∨ maxImmediateReconnects ≤ st.immediateReconnects) :
    scheduleReconnect opts st immediate =
      (.scheduled (backoffDelay opts st.reconnectAttempts),
       { st with reconnectAttempts := st.reconnectAttempts + 1,
                 immediateReconnects := 0 }) ∧
    backoffDelay opts st.reconnectAttempts =
      min (opts.initialDelay * opts.backoffFactor ^ st.reconnectAttempts)
        opts.maxDelay ∧
    (∀ s : ReconnectState, (reconnectSuccess s).reconnectAttempts = 0 ∧
      (reconnectSuccess s).immediateReconnects = 0) ∧
    (List.range 7).map (backoffDelay defaultReconnectOptions) =
      [1000, 2000, 4000, 8000, 16000, 30000, 30000] := by
  refine ⟨?_, rfl, fun s => ⟨rfl, rfl⟩, by decide⟩
  rcases h4 with h4 | h4
  · subst h4
    simp [scheduleReconnect, h1, h2, h3]
  · have hlt : decide (st.immediateReconnects < maxImmediateReconnects) = false := by
      simpa using Nat.not_lt.mpr h4
    simp [scheduleReconnect, h1, h2, h3, hlt]

/-- C2 witness: concrete backoff attempt with two prior attempts. -/
theorem C2_exponential_backoff_witness :
    scheduleReconnect defaultReconnectOptions ⟨2, 0, false⟩ false =
      (.scheduled (backoffDelay defaultReconnectOptions 2), ⟨3, 0, false⟩) ∧
    backoffDelay defaultReconnectOptions 2 =
      min (defaultReconnectOptions.initialDelay *
        defaultReconnectOptions.backoffFactor ^ 2) defaultReconnectOptions.maxDelay ∧
    (∀ s : ReconnectState, (reconnectSuccess s).reconnectAttempts = 0 ∧
      (reconnectSuccess s).immediateReconnects = 0) ∧
    (List.range 7).map (backoffDelay defaultReconnectOptions) =
      [1000, 2000, 4000, 8000, 16000, 30000, 30000] :=
  C2_exponential_backoff defaultReconnectOptions ⟨2, 0, false⟩ false rfl rfl
    (by decide) (Or.inl rfl)

/-- C6: starting from a zero consecutive-immediate-retry count, the first
three restart-coded close events each schedule a zero-delay reconnect, the
fourth falls back to the exponential backoff delay, and the
consecutive-immediate-retry counter never exceeds the fixed cap of three
across scheduling decisions and timer outcomes. -/
theorem C6_immediate_retry_cap (opts : ReconnectOptions) (st : ReconnectState)
    (h0 : st.immediateReconnects = 0)
    (h1 : st.intentionalDisconnect = false) (h2 : opts.enabled = true)
    (h3 : atMaxAttempts opts st.reconnectAttempts = false) :
    (scheduleReconnect opts st true).1 = .scheduled 0 ∧
    (scheduleReconnect opts (scheduleReconnect opts st true).2 true).1 =
      .scheduled 0 ∧
    (scheduleReconnect opts (scheduleReconnect opts
      (scheduleReconnect opts st true).2 true).2 true).1 = .scheduled 0 ∧
    (scheduleReconnect opts (scheduleReconnect opts (scheduleReconnect opts
      (scheduleReconnect opts st true).2 true).2 true).2 true).1 =
      .scheduled (backoffDelay opts st.reconnectAttempts) ∧
    (∀ s : ReconnectState, ∀ b : Bool,
      s.immediateReconnects ≤ maxImmediateReconnects →
      ((scheduleReconnect opts s b).2).immediateReconnects ≤
        maxImmediateReconnects ∧
      (reconnectSuccess s).immediateReconnects ≤ maxImmediateReconnects) := by
  have e1 : scheduleReconnect opts st true =
      (.scheduled 0, { st with immediateReconnects := 1 }) := by
    simp [scheduleReconnect, h0, h1, h2, h3, maxImmediateReconnects]
  have e2 : scheduleReconnect opts { st with immediateReconnects := 1 } true =
      (.scheduled 0, { st with immediateReconnects := 2 }) := by
    simp [scheduleReconnect, h1, h2, h3, maxImmediateReconnects]
  have e3 : scheduleReconnect opts { st with immediateReconnects := 2 } true =
      (.scheduled 0, { st with immediateReconnects := 3 }) := by
    simp [scheduleReconnect, h1, h2, h3, maxImmediateReconnects]
  have e4 : scheduleReconnect opts { st with immediateReconnects := 3 } true =
      (.scheduled (backoffDelay opts st.reconnectAttempts),
       { st with reconnectAttempts := st.reconnectAttempts + 1,
                 immediateReconnects := 0 }) := by
    simp [scheduleReconnect, h1, h2, h3, maxImmediateReconnects]
  refine ⟨by rw [e1], by rw [e1, e2], by rw [e1, e2, e3], by rw [e1, e2, e3, e4], ?_⟩
  intro s b hs
  refine ⟨?_, by simp [reconnectSuccess, maxImmediateReconnects]⟩
  simp only [scheduleReconnect, maxImmediateReconnects] at hs ⊢
  split_ifs <;> simp_all <;> omega

/-- C6 witness: concrete run of four restart-coded closes with the default
options from a fresh state. -/
theorem C6_immediate_retry_cap_witness :
    (scheduleReconnect defaultReconnectOptions ⟨0, 0, false⟩ true).1 =
      .scheduled 0 ∧
    (scheduleReconnect defaultReconnectOptions
      (scheduleReconnect defaultReconnectOptions ⟨0, 0, false⟩ true).2 true).1 =
      .scheduled 0 ∧
    (scheduleReconnect defaultReconnectOptions (scheduleReconnect
      defaultReconnectOptions (scheduleReconnect defaultReconnectOptions
      ⟨0, 0, false⟩ true).2 true).2 true).1 = .scheduled 0 ∧
    (scheduleReconnect defaultReconnectOptions (scheduleReconnect
      defaultReconnectOptions (scheduleReconnect defaultReconnectOptions
      (scheduleReconnect defaultReconnectOptions ⟨0, 0, false⟩ true).2
      true).2 true).2 true).1 =
      .scheduled (backoffDelay defaultReconnectOptions 0) ∧
    (∀ s : ReconnectState, ∀ b : Bool,
      s.immediateReconnects ≤ maxImmediateReconnects →
      ((scheduleReconnect defaultReconnectOptions s b).2).immediateReconnects ≤
        maxImmediateReconnects ∧
      (reconnectSuccess s).immediateReconnects ≤ maxImmediateReconnects) :=
  C6_immediate_retry_cap defaultReconnectOptions ⟨0, 0, false⟩ rfl rfl rfl
    (by decide)

/-- C9: connect() on an already-open connection returns immediately with no
state change and no external calls (no ticket exchange, no socket open), so
a second connect() while connected is observationally the same as one. -/
theorem C9_connect_idempotent (st : ClientConnState) (env env2 : ConnectEnv)
    (h : wsIsOpen st = true) :
    connect st env = (st, none, []) ∧
    connect (connect st env).1 env2 = connect st env := by
  have h1 : connect st env = (st, none, []) := by simp [connect, h]
  exact ⟨h1, by simp [connect, h]⟩

/-- C9 witness: a concretely connected client. -/
theorem C9_connect_idempotent_witness :
    connect exConnected envOkEx = (exConnected, none, []) ∧
    connect (connect exConnected envOkEx).1 envTicketFail =
      connect exConnected envOkEx :=
  C9_connect_idempotent exConnected envOkEx envTicketFail (by decide)

/-- C3: with the socket not open, a ticket-exchange failure makes connect()
reject with the ApiError shape and a socket-open failure with the
socket-failure shape; the two rejections are distinguishable; in both cases
the session stays not connected, and a later connect() with healthy
collaborators succeeds. -/
theorem C3_connect_failure_modes (st : ClientConnState)
    (envT envS envOk : ConnectEnv) (c : Nat) (m tkt tk2 : String)
    (hNot : wsIsOpen st = false)
    (hT : envT.ticketResult = .error c)
    (hS1 : envS.ticketResult = .ok tkt) (hS2 : envS.socketResult = .error m)
    (hOk1 : envOk.ticketResult = .ok tk2) (hOk2 : envOk.socketResult = .ok ()) :
    (connect st envT).2.1 = some (.ticketExchangeFailed c) ∧
    (connect st envS).2.1 = some (.socketOpenFailed m) ∧
    ConnectError.ticketExchangeFailed c ≠ ConnectError.socketOpenFailed m ∧
    wsIsOpen (connect st envT).1 = false ∧
    wsIsOpen (connect st envS).1 = false ∧
    (connect (connect st envT).1 envOk).2.1 = none ∧
    wsIsOpen (connect (connect st envT).1 envOk).1 = true ∧
    (connect (connect st envS).1 envOk).2.1 = none ∧
    wsIsOpen (connect (connect st envS).1 envOk).1 = true := by
  have hws : ∀ r : ReconnectState, ∀ b : Bool,
      wsIsOpen { st with reconn := r, reconnectTimer := b } = wsIsOpen st := by
    intro r b; rfl
  have hws2 : ∀ r : ReconnectState, ∀ b : Bool,
      wsIsOpen { ws := some WS_OPEN, reconn := r, reconnectTimer := b } = true := by
    intro r b; rfl
  simp [connect, doConnect, hNot, hT, hS1, hS2, hOk1, hOk2, hws, hws2]

/-- C3 witness: a concretely disconnected client against failing and healthy
collaborators. -/
theorem C3_connect_failure_modes_witness :
    (connect exDisconnected envTicketFail).2.1 =
      some (.ticketExchangeFailed 500) ∧
    (connect exDisconnected envSocketFail).2.1 =
      some (.socketOpenFailed "refused") ∧
    ConnectError.ticketExchangeFailed 500 ≠
      ConnectError.socketOpenFailed "refused" ∧
    wsIsOpen (connect exDisconnected envTicketFail).1 = false ∧
    wsIsOpen (connect exDisconnected envSocketFail).1 = false ∧
    (connect (connect exDisconnected envTicketFail).1 envOkEx).2.1 = none ∧
    wsIsOpen (connect (connect exDisconnected envTicketFail).1 envOkEx).1 =
      true ∧
    (connect (connect exDisconnected envSocketFail).1 envOkEx).2.1 = none ∧
    wsIsOpen (connect (connect exDisconnected envSocketFail).1 envOkEx).1 =
      true :=
  C3_connect_failure_modes exDisconnected envTicketFail envSocketFail envOkEx
    500 "refused" "tk" "tk" rfl rfl rfl rfl rfl rfl

-- ─── Event dispatcher lemmas ───────────────────────────────────────────

/-- Folding an accumulate-append body is a flat map. -/
theorem foldl_trace (g : Nat → List (Nat × String)) (l : List Nat) :
    ∀ init : List (Nat × String),
      l.foldl (fun acc h => acc ++ g h) init = init ++ l.flatMap g := by
  induction l with
  | nil => intro init; simp
  | cons h t ih => intro init; simp [List.flatMap_cons, ih]

/-- Unfolding one step of emitCore into flat-map form. -/
theorem emitCore_succ (reg : HandlerRegistry) (throws : Nat → String → Bool)
    (fuel : Nat) (event : String) :
    emitCore reg throws (fuel + 1) event =
      (reg event).flatMap (fun h =>
        (h, event) ::
          (if throws h event then
            (if event = "error" then []
             else emitCore reg throws fuel "error")
           else [])) := by
  have hbody : (fun (acc : List (Nat × String)) (h : Nat) =>
      let acc1 := acc ++ [(h, event)]
      if throws h event then
        (if event = "error" then acc1
         else acc1 ++ emitCore reg throws fuel "error")
      else acc1)
      = fun acc h => acc ++ ((h, event) ::
          (if throws h event then
            (if event = "error" then []
             else emitCore reg throws fuel "error")
           else [])) := by
    funext acc h
    by_cases t : throws h event <;> by_cases e : event = "error" <;> simp [t, e]
  show (reg event).foldl _ [] = _
  rw [hbody, foldl_trace]
  simp

/-- Emitting "error" just invokes every error handler once: a throwing error
handler is swallowed, not re-dispatched. -/
theorem emitCore_error (reg : HandlerRegistry) (throws : Nat → String → Bool)
    (fuel : Nat) :
    emitCore reg throws (fuel + 1) "error" =
      (reg "error").map (fun h => (h, "error")) := by
  rw [emitCore_succ]
  have hsingle : ∀ l : List Nat,
      l.flatMap (fun h => [(h, ("error" : String))]) =
        l.map (fun h => (h, "error")) := by
    intro l; induction l with
    | nil => simp
    | cons a t ih => simp [List.flatMap_cons, ih]
  simpa using hsingle (reg "error")

/-- The closed form of a full emit call on the "error" event. -/
theorem emit_error_closed (reg : HandlerRegistry) (throws : Nat → String → Bool) :
    emit reg throws "error" = (reg "error").map (fun h => (h, "error")) := by
  have h := emitCore_error reg throws 1
  simpa [emit] using h

/-- The closed form of a full emit call on a non-error event: each handler
invocation, followed, when it throws, by one invocation of every error
handler. -/
theorem emit_eq_flatMap (reg : HandlerRegistry) (throws : Nat → String → Bool)
    (event : String) (hne : event ≠ "error") :
    emit reg throws event =
      (reg event).flatMap (fun h =>
        (h, event) ::
          (if throws h event then (reg "error").map (fun g => (g, "error"))
           else [])) := by
  have h2 : emit reg throws event = emitCore reg throws (1 + 1) event := rfl
  have h1 : emitCore reg throws 1 "error" =
      (reg "error").map (fun g => (g, "error")) := by
    have h := emitCore_error reg throws 0
    simpa using h
  rw [h2, emitCore_succ]
  simp only [hne, if_false, h1]

/-- Every handler registered for the emitted event type is invoked, in
registration order, regardless of other handlers throwing. -/
theorem emit_filter_event (reg : HandlerRegistry) (throws : Nat → String → Bool)
    (event : String) :
    ((emit reg throws event).filter (fun p => p.2 = event)).map Prod.fst =
      reg event := by
  by_cases he : event = "error"
  · subst he
    rw [emit_error_closed]
    have hall : ∀ l : List Nat,
        ((l.map (fun g => (g, ("error" : String)))).filter
          (fun p => p.2 = "error")).map Prod.fst = l := by
      intro l; induction l with
      | nil => simp
      | cons a t ih => simp [ih]
    exact hall (reg "error")
  · rw [emit_eq_flatMap reg throws event he]
    have herr : ((reg "error").map (fun g => (g, "error"))).filter
        (fun p => p.2 = event) = [] := by
      have : ∀ l : List Nat, (l.map (fun g => (g, ("error" : String)))).filter
          (fun p => p.2 = event) = [] := by
        intro l; induction l with
        | nil => simp
        | cons a t ih => simp [ih, Ne.symm he]
      exact this (reg "error")
    have hgen : ∀ l : List Nat,
        ((l.flatMap (fun h =>
          (h, event) ::
            (if throws h event then (reg "error").map (fun g => (g, "error"))
             else []))).filter (fun p => p.2 = event)).map Prod.fst = l := by
      intro l; induction l with
      | nil => simp
      | cons a t ih =>
        rw [List.flatMap_cons, List.filter_append, List.map_append, ih]
        by_cases ta : throws a event <;> simp [ta, herr, List.filter_cons]
    exact hgen (reg event)

/-- For a non-error event, exactly one full round of error-handler
invocations occurs per throwing handler. -/
theorem emit_error_dispatches (reg : HandlerRegistry)
    (throws : Nat → String → Bool) (event : String) (hne : event ≠ "error") :
    ((emit reg throws event).filter (fun p => p.2 = "error")).length =
      ((reg event).filter (fun h => throws h event)).length *
        (reg "error").length := by
  rw [emit_eq_flatMap reg throws event hne]
  have hkeep : ((reg "error").map (fun g => (g, "error"))).filter
      (fun p => p.2 = "error") = (reg "error").map (fun g => (g, "error")) := by
    have : ∀ l : List Nat, (l.map (fun g => (g, ("error" : String)))).filter
        (fun p => p.2 = "error") = l.map (fun g => (g, "error")) := by
      intro l; induction l with
      | nil => simp
      | cons a t ih => simp [ih]
    exact this (reg "error")
  have hgen : ∀ l : List Nat,
      ((l.flatMap (fun h =>
        (h, event) ::
          (if throws h event then (reg "error").map (fun g => (g, "error"))
           else []))).filter (fun p => p.2 = "error")).length =
        (l.filter (fun h => throws h event)).length * (reg "error").length := by
    intro l; induction l with
    | nil => simp
    | cons a t ih =>
      rw [List.flatMap_cons, List.filter_append, List.length_append, ih,
        List.filter_cons]
      by_cases ta : throws a event <;>
        simp [ta, hne, hkeep, Nat.add_mul, Nat.one_mul] <;> omega
  exact hgen (reg event)

/-- The number of invocations of a fixed handler for the emitted event type
equals its registration count. -/
theorem emit_count_pair (reg : HandlerRegistry) (throws : Nat → String → Bool)
    (event : String) (x : Nat) :
    ((emit reg throws event).filter
      (fun p => decide (p.1 = x) && decide (p.2 = event))).length =
      (reg event).count x := by
  by_cases he : event = "error"
  · subst he
    rw [emit_error_closed]
    have hall : ∀ l : List Nat,
        ((l.map (fun g => (g, ("error" : String)))).filter
          (fun p => decide (p.1 = x) && decide (p.2 = "error"))).length =
          l.count x := by
      intro l; induction l with
      | nil => simp
      | cons a t ih =>
        by_cases hax : a = x <;>
          simp [List.filter_cons, List.count_cons, hax, ih]
    exact hall (reg "error")
  · rw [emit_eq_flatMap reg throws event he]
    have herr : ((reg "error").map (fun g => (g, "error"))).filter
        (fun p => decide (p.1 = x) && decide (p.2 = event)) = [] := by
      have : ∀ l : List Nat, (l.map (fun g => (g, ("error" : String)))).filter
          (fun p => decide (p.1 = x) && decide (p.2 = event)) = [] := by
        intro l; induction l with
        | nil => simp
        | cons a t ih => simp [ih, Ne.symm he]
      exact this (reg "error")
    have hgen : ∀ l : List Nat,
        ((l.flatMap (fun h =>
          (h, event) ::
            (if throws h event then (reg "error").map (fun g => (g, "error"))
             else []))).filter
          (fun p => decide (p.1 = x) && decide (p.2 = event))).length =
          l.count x := by
      intro l; induction l with
      | nil => simp
      | cons a t ih =>
        rw [List.flatMap_cons, List.filter_append, List.length_append, ih,
          List.filter_cons]
        by_cases ta : throws a event <;> by_cases hax : a = x
        · subst hax; simp [ta, herr, List.count_cons]; omega
        · simp [ta, hax, herr, List.count_cons]
        · subst hax; simp [ta, herr, List.count_cons]; omega
        · simp [ta, hax, herr, List.count_cons]
    exact hgen (reg event)

-- ─── Event dispatcher with the full handler behavior space ─────────────

/-- Folding a pair of accumulate-append bodies is a pair of flat maps. -/
theorem foldl_trace2 (g1 g2 : Nat → List (Nat × String)) (l : List Nat) :
    ∀ i : List (Nat × String) × List (Nat × String),
      l.foldl (fun acc h => (acc.1 ++ g1 h, acc.2 ++ g2 h)) i =
        (i.1 ++ l.flatMap g1, i.2 ++ l.flatMap g2) := by
  induction l with
  | nil => intro i; simp
  | cons h t ih => intro i; simp [List.flatMap_cons, ih]

/-- A flat map of singletons is a map. -/
theorem flatMap_singleton_pair (e : String) (l : List Nat) :
    l.flatMap (fun h => [(h, e)]) = l.map (fun h => (h, e)) := by
  induction l with
  | nil => simp
  | cons a t ih => simp [List.flatMap_cons, ih]

/-- A flat map of guarded singletons is a map of the filtered list. -/
theorem flatMap_guard_pair (e : String) (p : Nat → Bool) (l : List Nat) :
    l.flatMap (fun h => if p h then [(h, e)] else []) =
      (l.filter p).map (fun h => (h, e)) := by
  induction l with
  | nil => simp
  | cons a t ih =>
    by_cases hp : p a <;> simp [List.flatMap_cons, hp, ih, List.filter_cons]

/-- Unfolding one step of emitAsyncCore into flat-map form. -/
theorem emitAsyncCore_succ (reg : HandlerRegistry)
    (throws rejects : Nat → String → Bool) (fuel : Nat) (event : String) :
    emitAsyncCore reg throws rejects (fuel + 1) event =
      ((reg event).flatMap (fun h =>
        (h, event) ::
          (if throws h event then
            (if event = "error" then []
             else (emitAsyncCore reg throws rejects fuel "error").1)
           else [])),
       (reg event).flatMap (fun h =>
          if throws h event then
            (if event = "error" then []
             else (emitAsyncCore reg throws rejects fuel "error").2)
          else if rejects h event then [(h, event)]
          else [])) := by
  have hbody : (fun (acc : List (Nat × String) × List (Nat × String)) (h : Nat) =>
      if throws h event then
        if event = "error" then (acc.1 ++ [(h, event)], acc.2)
        else
          ((acc.1 ++ [(h, event)]) ++
            (emitAsyncCore reg throws rejects fuel "error").1,
           acc.2 ++ (emitAsyncCore reg throws rejects fuel "error").2)
      else if rejects h event then
        (acc.1 ++ [(h, event)], acc.2 ++ [(h, event)])
      else (acc.1 ++ [(h, event)], acc.2))
      = fun acc h =>
        (acc.1 ++ ((h, event) ::
          (if throws h event then
            (if event = "error" then []
             else (emitAsyncCore reg throws rejects fuel "error").1)
           else [])),
         acc.2 ++ (if throws h event then
            (if event = "error" then []
             else (emitAsyncCore reg throws rejects fuel "error").2)
          else if rejects h event then [(h, event)]
          else [])) := by
    funext acc h
    by_cases he : event = "error"
    · subst he
      by_cases ht : throws h "error" <;> by_cases hr : rejects h "error" <;>
        simp [ht, hr]
    · by_cases ht : throws h event <;> by_cases hr : rejects h event <;>
        simp [ht, hr, he]
  show (reg event).foldl _ ([], []) = _
  rw [hbody, foldl_trace2]
  simp

/-- Emitting "error" invokes every error handler once with no nested
dispatch: throwing error handlers are swallowed, rejecting error handlers
escape uncaught. -/
theorem emitAsyncCore_error (reg : HandlerRegistry)
    (throws rejects : Nat → String → Bool) (fuel : Nat) :
    emitAsyncCore reg throws rejects (fuel + 1) "error" =
      ((reg "error").map (fun h => (h, "error")),
       ((reg "error").filter
         (fun h => !(throws h "error") && rejects h "error")).map
         (fun h => (h, "error"))) := by
  have hbody : (fun (acc : List (Nat × String) × List (Nat × String)) (h : Nat) =>
      if throws h "error" then
        if ("error" : String) = "error" then (acc.1 ++ [(h, "error")], acc.2)
        else
          ((acc.1 ++ [(h, "error")]) ++
            (emitAsyncCore reg throws rejects fuel "error").1,
           acc.2 ++ (emitAsyncCore reg throws rejects fuel "error").2)
      else if rejects h "error" then
        (acc.1 ++ [(h, "error")], acc.2 ++ [(h, "error")])
      else (acc.1 ++ [(h, "error")], acc.2))
      = fun acc h =>
        (acc.1 ++ [(h, ("error" : String))],
         acc.2 ++ (if !(throws h "error") && rejects h "error" then
            [(h, ("error" : String))] else [])) := by
    funext acc h
    by_cases ht : throws h "error" <;> by_cases hr : rejects h "error" <;>
      simp [ht, hr]
  show (reg "error").foldl _ ([], []) = _
  rw [hbody, foldl_trace2]
  simp only [List.nil_append, Prod.mk.injEq]
  exact ⟨flatMap_singleton_pair "error" (reg "error"),
    flatMap_guard_pair "error" _ (reg "error")⟩

/-- The closed form of a full emitAsync call on a non-error event. -/
theorem emitAsync_eq (reg : HandlerRegistry)
    (throws rejects : Nat → String → Bool) (event : String)
    (hne : event ≠ "error") :
    emitAsync reg throws rejects event =
      ((reg event).flatMap (fun h =>
        (h, event) ::
          (if throws h event then (reg "error").map (fun g => (g, "error"))
           else [])),
       (reg event).flatMap (fun h =>
          if throws h event then
            ((reg "error").filter
              (fun g => !(throws g "error") && rejects g "error")).map
              (fun g => (g, "error"))
          else if rejects h event then [(h, event)]
          else [])) := by
  have hstart : emitAsync reg throws rejects event =
      emitAsyncCore reg throws rejects (1 + 1) event := rfl
  have herr1 : (emitAsyncCore reg throws rejects 1 "error").1 =
      (reg "error").map (fun g => (g, "error")) :=
    congrArg Prod.fst (emitAsyncCore_error reg throws rejects 0)
  have herr2 : (emitAsyncCore reg throws rejects 1 "error").2 =
      ((reg "error").filter
        (fun g => !(throws g "error") && rejects g "error")).map
        (fun g => (g, "error")) :=
    congrArg Prod.snd (emitAsyncCore_error reg throws rejects 0)
  rw [hstart, emitAsyncCore_succ]
  simp [hne, herr1, herr2]

/-- Every handler registered for the emitted event type is invoked, in
registration order, regardless of other handlers throwing or rejecting. -/
theorem emitAsync_filter_event (reg : HandlerRegistry)
    (throws rejects : Nat → String → Bool) (event : String) :
    ((emitAsync reg throws rejects event).1.filter
      (fun p => p.2 = event)).map Prod.fst = reg event := by
  by_cases he : event = "error"
  · subst he
    have h1 : (emitAsync reg throws rejects "error").1 =
        (reg "error").map (fun g => (g, "error")) :=
      congrArg Prod.fst (emitAsyncCore_error reg throws rejects 1)
    rw [h1]
    have hall : ∀ l : List Nat,
        ((l.map (fun g => (g, ("error" : String)))).filter
          (fun p => p.2 = "error")).map Prod.fst = l := by
      intro l; induction l with
      | nil => simp
      | cons a t ih => simp [ih]
    exact hall (reg "error")
  · rw [show (emitAsync reg throws rejects event).1 =
      ((reg event).flatMap (fun h =>
        (h, event) ::
          (if throws h event then (reg "error").map (fun g => (g, "error"))
           else []))) from
      congrArg Prod.fst (emitAsync_eq reg throws rejects event he)]
    have herr : ((reg "error").map (fun g => (g, "error"))).filter
        (fun p => p.2 = event) = [] := by
      have : ∀ l : List Nat, (l.map (fun g => (g, ("error" : String)))).filter
          (fun p => p.2 = event) = [] := by
        intro l; induction l with
        | nil => simp
        | cons a t ih => simp [ih, Ne.symm he]
      exact this (reg "error")
    have hgen : ∀ l : List Nat,
        ((l.flatMap (fun h =>
          (h, event) ::
            (if throws h event then (reg "error").map (fun g => (g, "error"))
             else []))).filter (fun p => p.2 = event)).map Prod.fst = l := by
      intro l; induction l with
      | nil => simp
      | cons a t ih =>
        rw [List.flatMap_cons, List.filter_append, List.map_append, ih]
        by_cases ht : throws a event <;> simp [ht, herr, List.filter_cons]
    exact hgen (reg event)

/-- For a non-error event, exactly one full round of error-handler
invocations occurs per synchronously throwing handler; rejecting handlers
contribute none. -/
theorem emitAsync_error_dispatches (reg : HandlerRegistry)
    (throws rejects : Nat → String → Bool) (event : String)
    (hne : event ≠ "error") :
    ((emitAsync reg throws rejects event).1.filter
      (fun p => p.2 = "error")).length =
      ((reg event).filter (fun h => throws h event)).length *
        (reg "error").length := by
  rw [show (emitAsync reg throws rejects event).1 =
    ((reg event).flatMap (fun h =>
      (h, event) ::
        (if throws h event then (reg "error").map (fun g => (g, "error"))
         else []))) from
    congrArg Prod.fst (emitAsync_eq reg throws rejects event hne)]
  have hkeep : ((reg "error").map (fun g => (g, "error"))).filter
      (fun p => p.2 = "error") = (reg "error").map (fun g => (g, "error")) := by
    have : ∀ l : List Nat, (l.map (fun g => (g, ("error" : String)))).filter
        (fun p => p.2 = "error") = l.map (fun g => (g, "error")) := by
      intro l; induction l with
      | nil => simp
      | cons a t ih => simp [ih]
    exact this (reg "error")
  have hgen : ∀ l : List Nat,
      ((l.flatMap (fun h =>
        (h, event) ::
          (if throws h event then (reg "error").map (fun g => (g, "error"))
           else []))).filter (fun p => p.2 = "error")).length =
        (l.filter (fun h => throws h event)).length * (reg "error").length := by
    intro l; induction l with
    | nil => simp
    | cons a t ih =>
      rw [List.flatMap_cons, List.filter_append, List.length_append, ih,
        List.filter_cons]
      by_cases ht : throws a event <;>
        simp [ht, hne, hkeep, Nat.add_mul, Nat.one_mul] <;> omega
  exact hgen (reg event)

/-- The rejections that escape the emitter for the emitted event type are
exactly its async handlers whose promises reject: they are never captured
and never re-dispatched as "error". -/
theorem emitAsync_uncaught (reg : HandlerRegistry)
    (throws rejects : Nat → String → Bool) (event : String) :
    ((emitAsync reg throws rejects event).2.filter
      (fun p => p.2 = event)).map Prod.fst =
      (reg event).filter (fun h => !(throws h event) && rejects h event) := by
  by_cases he : event = "error"
  · subst he
    have h2 : (emitAsync reg throws rejects "error").2 =
        ((reg "error").filter
          (fun h => !(throws h "error") && rejects h "error")).map
          (fun h => (h, "error")) :=
      congrArg Prod.snd (emitAsyncCore_error reg throws rejects 1)
    rw [h2]
    have hall : ∀ l : List Nat,
        ((l.map (fun g => (g, ("error" : String)))).filter
          (fun p => p.2 = "error")).map Prod.fst = l := by
      intro l; induction l with
      | nil => simp
      | cons a t ih => simp [ih]
    exact hall _
  · rw [show (emitAsync reg throws rejects event).2 =
      ((reg event).flatMap (fun h =>
        if throws h event then
          ((reg "error").filter
            (fun g => !(throws g "error") && rejects g "error")).map
            (fun g => (g, "error"))
        else if rejects h event then [(h, event)]
        else [])) from
      congrArg Prod.snd (emitAsync_eq reg throws rejects event he)]
    have herr : (((reg "error").filter
        (fun g => !(throws g "error") && rejects g "error")).map
        (fun g => (g, "error"))).filter (fun p => p.2 = event) = [] := by
      have : ∀ l : List Nat, (l.map (fun g => (g, ("error" : String)))).filter
          (fun p => p.2 = event) = [] := by
        intro l; induction l with
        | nil => simp
        | cons a t ih => simp [ih, Ne.symm he]
      exact this _
    have hgen : ∀ l : List Nat,
        ((l.flatMap (fun h =>
          if throws h event then
            ((reg "error").filter
              (fun g => !(throws g "error") && rejects g "error")).map
              (fun g => (g, "error"))
          else if rejects h event then [(h, event)]
          else [])).filter (fun p => p.2 = event)).map Prod.fst =
          l.filter (fun h => !(throws h event) && rejects h event) := by
      intro l; induction l with
      | nil => simp
      | cons a t ih =>
        rw [List.flatMap_cons, List.filter_append, List.map_append, ih,
          List.filter_cons]
        by_cases ht : throws a event <;> by_cases hr : rejects a event <;>
          simp [ht, hr, herr]
    exact hgen (reg event)

/-- C8 counterexample: handler 1, registered for thread_message, is an
async handler whose promise rejects; an error handler (9) is registered,
yet the emit dispatches no "error" event at all — the rejection is not
captured and instead escapes the emitter as an unhandled promise rejection,
refuting the claim at this concrete input. -/
theorem C8_reject_uncaptured :
    exRejects 1 "thread_message" = true ∧
    exReg "thread_message" = [1, 2] ∧
    exReg "error" = [9] ∧
    (emitAsync exReg neverFails exRejects "thread_message").1 =
      [(1, "thread_message"), (2, "thread_message")] ∧
    (emitAsync exReg neverFails exRejects "thread_message").1.filter
      (fun p => p.2 = "error") = [] ∧
    (emitAsync exReg neverFails exRejects "thread_message").2 =
      [(1, "thread_message")] := by
  refine ⟨by decide, by decide, by decide, by decide, by decide, by decide⟩

/-- C8 (amended): emit invokes every handler registered for the event type
even when earlier handlers throw or reject; each synchronously throwing
handler is re-dispatched as one full round of "error" handlers instead of
propagating; a promise rejection from an async handler is not captured by
the synchronous try/catch — it escapes the emitter uncaught, with no
"error" re-dispatch, while delivery still continues; and emitting "error"
itself performs exactly one invocation per error handler with any error
swallowed rather than re-emitted. -/
theorem C8_sync_throw_isolation (reg : HandlerRegistry)
    (throws rejects : Nat → String → Bool) (event : String) :
    ((emitAsync reg throws rejects event).1.filter
      (fun p => p.2 = event)).map Prod.fst = reg event ∧
    (event ≠ "error" →
      ((emitAsync reg throws rejects event).1.filter
        (fun p => p.2 = "error")).length =
        ((reg event).filter (fun h => throws h event)).length *
          (reg "error").length) ∧
    ((emitAsync reg throws rejects event).2.filter
      (fun p => p.2 = event)).map Prod.fst =
      (reg event).filter (fun h => !(throws h event) && rejects h event) ∧
    (emitAsync reg throws rejects "error").1 =
      (reg "error").map (fun h => (h, "error")) :=
  ⟨emitAsync_filter_event reg throws rejects event,
   fun hne => emitAsync_error_dispatches reg throws rejects event hne,
   emitAsync_uncaught reg throws rejects event,
   congrArg Prod.fst (emitAsyncCore_error reg throws rejects 1)⟩

/-- C8 witness: two thread_message handlers of which the first throws
synchronously, one error handler, and no rejecting handlers. -/
theorem C8_sync_throw_isolation_witness :
    ((emitAsync exReg exThrows neverFails "thread_message").1.filter
      (fun p => p.2 = "thread_message")).map Prod.fst =
      exReg "thread_message" ∧
    ("thread_message" ≠ "error" →
      ((emitAsync exReg exThrows neverFails "thread_message").1.filter
        (fun p => p.2 = "error")).length =
        ((exReg "thread_message").filter
          (fun h => exThrows h "thread_message")).length *
          (exReg "error").length) ∧
    ((emitAsync exReg exThrows neverFails "thread_message").2.filter
      (fun p => p.2 = "thread_message")).map Prod.fst =
      (exReg "thread_message").filter
        (fun h => !(exThrows h "thread_message") &&
          neverFails h "thread_message") ∧
    (emitAsync exReg exThrows neverFails "error").1 =
      (exReg "error").map (fun h => (h, "error")) :=
  C8_sync_throw_isolation exReg exThrows neverFails "thread_message"

/-- C10: registering the same handler reference twice for the same event is
a no-op (the per-event Set deduplicates), a subsequent emit of that event
invokes the handler exactly once, and a single off removes the registration
entirely. -/
theorem C10_duplicate_registration (reg : HandlerRegistry) (e : String)
    (h : Nat) (throws : Nat → String → Bool) (hnd : (reg e).Nodup) :
    onEvent (onEvent reg e h) e h = onEvent reg e h ∧
    ((emit (onEvent (onEvent reg e h) e h) throws e).filter
      (fun p => p.1 = h ∧ p.2 = e)).length = 1 ∧
    h ∉ (offEvent (onEvent (onEvent reg e h) e h) e h) e := by
  have honE : ∀ r : HandlerRegistry,
      (onEvent r e h) e = (if h ∈ r e then r e else r e ++ [h]) := by
    intro r; simp [onEvent]
  have hmem2 : h ∈ (onEvent reg e h) e := by
    rw [honE]
    by_cases hm : h ∈ reg e <;> simp [hm]
  have hidem : onEvent (onEvent reg e h) e h = onEvent reg e h := by
    funext e2
    by_cases he2 : e2 = e
    · rw [he2, honE (onEvent reg e h)]
      simp [hmem2]
    · simp [onEvent, he2]
  have hnd2 : ((onEvent reg e h) e).Nodup := by
    rw [honE]
    by_cases hm : h ∈ reg e
    · simpa [hm] using hnd
    · rw [if_neg hm]
      exact List.Nodup.append hnd (List.nodup_singleton h)
        (fun a ha hb => hm ((List.mem_singleton.mp hb) ▸ ha))
  have hcount : ((onEvent reg e h) e).count h = 1 := by
    rw [honE]
    by_cases hm : h ∈ reg e
    · simpa [hm] using List.count_eq_one_of_mem hnd hm
    · rw [if_neg hm]
      simp [List.count_append, List.count_eq_zero_of_not_mem hm]
  refine ⟨hidem, ?_, ?_⟩
  · rw [hidem]
    simp only [Bool.decide_and]
    rw [emit_count_pair, hcount]
  · rw [hidem]
    simp only [offEvent, if_pos rfl]
    exact hnd2.not_mem_erase

/-- C10 witness: double registration of handler 7 for the pong event on the
empty registry. -/
theorem C10_duplicate_registration_witness :
    onEvent (onEvent emptyReg "pong" 7) "pong" 7 = onEvent emptyReg "pong" 7 ∧
    ((emit (onEvent (onEvent emptyReg "pong" 7) "pong" 7) exThrows
      "pong").filter (fun p => p.1 = 7 ∧ p.2 = "pong")).length = 1 ∧
    7 ∉ (offEvent (onEvent (onEvent emptyReg "pong" 7) "pong" 7) "pong" 7)
      "pong" :=
  C10_duplicate_registration emptyReg "pong" 7 exThrows (by decide)

-- ─── Buffered context engine lemmas ────────────────────────────────────

/-- The append-and-cap step always equals dropping down to the cap. -/
theorem bufferAppend_eq_drop (opts : ThreadContextOptions)
    (b : List WireThreadMessage) (m : WireThreadMessage) :
    bufferAppend opts b m =
      (b ++ [m]).drop ((b.length + 1) - opts.maxBufferSize) := by
  simp only [bufferAppend]
  by_cases hlt : opts.maxBufferSize < (b ++ [m]).length
  · rw [if_pos hlt]
    congr 1
    simp [List.length_append]
  · rw [if_neg hlt]
    have hz2 : (b.length + 1) - opts.maxBufferSize = 0 := by
      simp [List.length_append] at hlt
      omega
    rw [hz2, List.drop_zero]

/-- Folding the append-and-cap step keeps the most recent messages: starting
within the cap, the buffer after any message sequence is the tail of the
whole stream that fits the cap. -/
theorem foldl_bufferAppend (opts : ThreadContextOptions)
    (msgs : List WireThreadMessage) :
    ∀ b : List WireThreadMessage, b.length ≤ opts.maxBufferSize →
      msgs.foldl (bufferAppend opts) b =
        (b ++ msgs).drop ((b.length + msgs.length) - opts.maxBufferSize) := by
  induction msgs with
  | nil =>
    intro b hb
    have hz : (b.length + ([] : List WireThreadMessage).length) -
        opts.maxBufferSize = 0 := by
      simp only [List.length_nil]
      omega
    rw [hz, List.drop_zero, List.append_nil]
    rfl
  | cons m t ih =>
    intro b hb
    have hk : (b.length + 1) - opts.maxBufferSize ≤ (b ++ [m]).length := by
      simp [List.length_append]
    have hlen : ((b ++ [m]).drop ((b.length + 1) - opts.maxBufferSize)).length
        = (b.length + 1) - ((b.length + 1) - opts.maxBufferSize) := by
      rw [List.length_drop]
      simp [List.length_append]
    have hb2 : (bufferAppend opts b m).length ≤ opts.maxBufferSize := by
      rw [bufferAppend_eq_drop, hlen]
      omega
    rw [List.foldl_cons, ih _ hb2, bufferAppend_eq_drop]
    rw [← List.drop_append_of_le_length hk, List.drop_drop]
    have hassoc : (b ++ [m]) ++ t = b ++ m :: t := by simp
    rw [hassoc]
    congr 1
    rw [hlen]
    simp only [List.length_cons]
    omega

/-- Processing a run of started, non-self, non-triggering messages for one
conversation folds the append-and-cap step over its buffer and leaves the
engine started. -/
theorem handleThreadMessage_noTrigger_fold (opts : ThreadContextOptions)
    (threadId : String) (fetch : Option (Thread × List ThreadParticipant))
    (now : Nat) (msgs : List WireThreadMessage) :
    ∀ st : ThreadContextState, st.started = true →
      (∀ m ∈ msgs, m.sender_id ≠ opts.botId) →
      (∀ m ∈ msgs, isMention opts m = false) →
      (msgs.foldl (fun s m => handleThreadMessage opts s threadId m fetch [] now)
        st).buffers threadId =
        msgs.foldl (bufferAppend opts) (st.buffers threadId) ∧
      (msgs.foldl (fun s m => handleThreadMessage opts s threadId m fetch [] now)
        st).started = true := by
  induction msgs with
  | nil => intro st hs _ _; exact ⟨rfl, hs⟩
  | cons m t ih =>
    intro st hs hself hment
    have hstep : handleThreadMessage opts st threadId m fetch [] now =
        { st with buffers := (setMap st.buffers threadId (bufferAppend opts (st.buffers threadId) m)) } := by
      simp [handleThreadMessage, hs, hself m (List.mem_cons_self m t),
        hment m (List.mem_cons_self m t)]
    rw [List.foldl_cons, hstep, List.foldl_cons]
    obtain ⟨h1, h2⟩ := ih
      { st with buffers := (setMap st.buffers threadId (bufferAppend opts (st.buffers threadId) m)) } hs
      (fun x hx => hself x (List.mem_cons_of_mem m hx))
      (fun x hx => hment x (List.mem_cons_of_mem m hx))
    refine ⟨?_, h2⟩
    rw [h1]
    congr 1
    simp [setMap]

/-- C5: after N inbound thread messages, none self-sent and none matching a
trigger pattern, the conversation buffer holds exactly the most recent
min(N, maxBufferSize) messages in arrival order. -/
theorem C5_buffer_bounded_fifo (opts : ThreadContextOptions)
    (st : ThreadContextState) (threadId : String)
    (msgs : List WireThreadMessage)
    (fetch : Option (Thread × List ThreadParticipant)) (now : Nat)
    (hstart : st.started = true)
    (hempty : st.buffers threadId = [])
    (hself : ∀ m ∈ msgs, m.sender_id ≠ opts.botId)
    (hment : ∀ m ∈ msgs, isMention opts m = false) :
    ((msgs.foldl (fun s m => handleThreadMessage opts s threadId m fetch [] now)
      st).buffers threadId).length = min msgs.length opts.maxBufferSize ∧
    (msgs.foldl (fun s m => handleThreadMessage opts s threadId m fetch [] now)
      st).buffers threadId = msgs.drop (msgs.length - opts.maxBufferSize) := by
  obtain ⟨hbuf, -⟩ := handleThreadMessage_noTrigger_fold opts threadId fetch now
    msgs st hstart hself hment
  rw [hbuf, hempty]
  rw [foldl_bufferAppend opts msgs [] (by simp)]
  constructor
  · simp only [List.nil_append, List.length_nil, Nat.zero_add, List.length_drop]
    omega
  · simp

/-- C5 witness: three messages against a cap of two leave the last two. -/
theorem C5_buffer_bounded_fifo_witness :
    ((([exMsg "A" 1, exMsg "B" 2, exMsg "C" 3]).foldl
      (fun s m => handleThreadMessage c7Opts s "t1" m none [] 0)
      exEmptyState).buffers "t1").length =
      min 3 c7Opts.maxBufferSize ∧
    (([exMsg "A" 1, exMsg "B" 2, exMsg "C" 3]).foldl
      (fun s m => handleThreadMessage c7Opts s "t1" m none [] 0)
      exEmptyState).buffers "t1" =
      ([exMsg "A" 1, exMsg "B" 2, exMsg "C" 3]).drop (3 - c7Opts.maxBufferSize) :=
  C5_buffer_bounded_fifo c7Opts exEmptyState "t1"
    [exMsg "A" 1, exMsg "B" 2, exMsg "C" 3] none 0 rfl rfl
    (by decide) (by decide)

/-- C4: with a delivery watermark (T, S) recorded for a conversation, the
delta mode of toPromptContext renders a buffered message m exactly when
m.created_at > T, or m.created_at = T and m.id is not in S. -/
theorem C4_delta_watermark (st : ThreadContextState) (threadId : String)
    (T : Nat) (S : List String) (m : WireThreadMessage)
    (hW : st.deliveredUpTo threadId = some T)
    (hS : st.deliveredIds threadId = some S)
    (hm : m ∈ st.buffers threadId) :
    m ∈ deltaMessages st threadId ↔
      (T < m.created_at ∨ (m.created_at = T ∧ m.id ∉ S)) := by
  unfold deltaMessages deltaFilter
  rw [List.mem_filter]
  simp only [hW, hS, Option.getD_some]
  by_cases h1 : T < m.created_at
  · simp [hm, h1]
  · by_cases h2 : m.created_at = T
    · simp [hm, h1, h2, List.elem_iff]
    · simp [hm, h1, h2]

/-- C4 witness: watermark (2, ids containing only B) over buffer
[A(1), B(2), C(3)]; message C(3) is strictly newer than the watermark. -/
theorem C4_delta_watermark_witness :
    exMsg "C" 3 ∈ deltaMessages c4State "t1" ↔
      (2 < (exMsg "C" 3).created_at ∨
        ((exMsg "C" 3).created_at = 2 ∧ (exMsg "C" 3).id ∉ ["B"])) :=
  C4_delta_watermark c4State "t1" 2 ["B"] (exMsg "C" 3) rfl rfl (by decide)

/-- Every delivery records the watermark from the frozen slice: the
timestamp of its last message (or the current wall clock when the slice is
empty) together with the ids of the frozen messages at that timestamp. -/
theorem triggerDelivery_watermark (opts : ThreadContextOptions)
    (st : ThreadContextState) (threadId : String)
    (trig : Option WireThreadMessage)
    (fetch : Option (Thread × List ThreadParticipant))
    (mid : List (String × WireThreadMessage)) (now : Nat) :
    (triggerDelivery opts st threadId trig fetch mid now).state.deliveredUpTo
        threadId =
      some ((((st.buffers threadId).getLast?).map
        (fun m => m.created_at)).getD now) ∧
    (triggerDelivery opts st threadId trig fetch mid now).state.deliveredIds
        threadId =
      some (((st.buffers threadId).filter (fun m =>
        m.created_at == (((st.buffers threadId).getLast?).map
          (fun m => m.created_at)).getD now)).map (fun m => m.id)) := by
  constructor <;> simp [triggerDelivery, setMap, List.take_length]

/-- C7: after a delivery whose frozen slice is non-empty the watermark is
the created_at of the slice's last message together with the ids of the
slice messages sharing that timestamp, and after a delivery over an empty
slice it is the wall clock with an empty id set; concretely, with cap 2,
appending A(1), B(2), C(3) without trigger and flushing yields
newMessages [B, C], bufferedCount 2, and watermark (3, ids containing
exactly C). -/
theorem C7_watermark_and_flush (opts : ThreadContextOptions)
    (st : ThreadContextState) (threadId : String)
    (trig : Option WireThreadMessage)
    (fetch : Option (Thread × List ThreadParticipant))
    (mid : List (String × WireThreadMessage)) (now : Nat)
    (lastM : WireThreadMessage)
    (hlast : (st.buffers threadId).getLast? = some lastM) :
    (triggerDelivery opts st threadId trig fetch mid now).state.deliveredUpTo
        threadId = some lastM.created_at ∧
    (triggerDelivery opts st threadId trig fetch mid now).state.deliveredIds
        threadId =
      some (((st.buffers threadId).filter
        (fun m => m.created_at == lastM.created_at)).map (fun m => m.id)) ∧
    (∀ st2 : ThreadContextState, st2.buffers threadId = [] →
      (triggerDelivery opts st2 threadId trig fetch mid now).state.deliveredUpTo
          threadId = some now ∧
      (triggerDelivery opts st2 threadId trig fetch mid now).state.deliveredIds
          threadId = some []) ∧
    c7Buffered.buffers "t1" = [exMsg "B" 2, exMsg "C" 3] ∧
    (c7Flush.map (fun r => r.trigger.snapshot.newMessages)) =
      some [exMsg "B" 2, exMsg "C" 3] ∧
    (c7Flush.map (fun r => r.trigger.snapshot.bufferedCount)) = some 2 ∧
    (c7Flush.map (fun r => r.state.deliveredUpTo "t1")) = some (some 3) ∧
    (c7Flush.map (fun r => r.state.deliveredIds "t1")) = some (some ["C"]) := by
  obtain ⟨hup, hids⟩ :=
    triggerDelivery_watermark opts st threadId trig fetch mid now
  refine ⟨?_, ?_, ?_, by decide, by decide, by decide, by decide, by decide⟩
  · rw [hup, hlast]
    rfl
  · rw [hids, hlast]
    rfl
  · intro st2 h2
    obtain ⟨hup2, hids2⟩ :=
      triggerDelivery_watermark opts st2 threadId trig fetch mid now
    rw [h2] at hup2 hids2
    exact ⟨by simpa using hup2, by simpa using hids2⟩

/-- C7 witness: the delivery performed by the concrete flush above, whose
frozen slice [B(2), C(3)] ends at C. -/
theorem C7_watermark_and_flush_witness :
    (triggerDelivery c7Opts c7Buffered "t1" (some (exMsg "C" 3)) none []
      99).state.deliveredUpTo "t1" = some (exMsg "C" 3).created_at ∧
    (triggerDelivery c7Opts c7Buffered "t1" (some (exMsg "C" 3)) none []
      99).state.deliveredIds "t1" =
      some (((c7Buffered.buffers "t1").filter
        (fun m => m.created_at == (exMsg "C" 3).created_at)).map
        (fun m => m.id)) ∧
    (∀ st2 : ThreadContextState, st2.buffers "t1" = [] →
      (triggerDelivery c7Opts st2 "t1" (some (exMsg "C" 3)) none []
        99).state.deliveredUpTo "t1" = some 99 ∧
      (triggerDelivery c7Opts st2 "t1" (some (exMsg "C" 3)) none []
        99).state.deliveredIds "t1" = some []) ∧
    c7Buffered.buffers "t1" = [exMsg "B" 2, exMsg "C" 3] ∧
    (c7Flush.map (fun r => r.trigger.snapshot.newMessages)) =
      some [exMsg "B" 2, exMsg "C" 3] ∧
    (c7Flush.map (fun r => r.trigger.snapshot.bufferedCount)) = some 2 ∧
    (c7Flush.map (fun r => r.state.deliveredUpTo "t1")) = some (some 3) ∧
    (c7Flush.map (fun r => r.state.deliveredIds "t1")) = some (some ["C"]) :=
  C7_watermark_and_flush c7Opts c7Buffered "t1" (some (exMsg "C" 3)) none []
    99 (exMsg "C" 3) (by decide)

/-- C1: evaluation of the failing input.  With maxBufferSize 1 and one
buffered message m1, a delivery is triggered and one further message m2
arrives while the handlers are awaited.  The snapshot correctly freezes
[m1], but the cap-splice performed by the mid-delivery append shifts the
buffer, so the final reconcile slice drops m2: the post-delivery buffer is
empty rather than [m2], losing the message that arrived during handler
execution (contradicting the no-loss requirement and the source's own
comment that such messages are preserved). -/
theorem C1_mid_delivery_loss :
    c1Pre.buffers "t1" = [exMsg "m1" 1] ∧
    c1Delivery.trigger.snapshot.newMessages = [exMsg "m1" 1] ∧
    c1Delivery.trigger.snapshot.bufferedCount = 1 ∧
    c1Delivery.state.buffers "t1" = [] ∧
    c1Delivery.state.buffers "t1" ≠ [exMsg "m2" 2] := by
  refine ⟨by decide, by decide, by decide, by decide, by decide⟩

end HxaSdk
